import Mathlib

/-!
Verification development for the `EmulatedTracker` session engine of
`tracker_emulation-rs` (`src/lib.rs`), shallowly embedded in Lean.

Modelling conventions:
* machine integers (`u64`, `u16`, `u8`) are `Nat` reduced modulo the
  corresponding power of two at every point where the Rust code can wrap;
* the external `firmware_protocol` codec is abstracted to typed packet
  values: an inbound datagram is represented by the *result* of
  `Packet::from_bytes` (`Option (Nat × CbPacket)`), an outbound packet by
  the typed value handed to `Packet::new`;
* `f32` payload fields are carried as opaque raw bit patterns (`F32`):
  the tracker never computes on them, it only forwards them;
* the UDP socket is modelled by its presence (`Option Unit`) plus an
  event trace of datagrams sent; success of a `send_to`/`recv_from`/
  `bind`/`set_broadcast` call is an explicit boolean parameter supplied
  by the environment;
* the `tokio::sync::watch` status channel is modelled by its latest
  published value (`published_status`) plus explicit `published` events;
* fallible Rust code returns an `Outcome` that distinguishes an
  `Err(String)` return from a panic (`expect`/`unwrap`), since `lib.rs`
  uses both.
-/

namespace TrackerEmulation

/-- Modulus of the Rust `u64` type. -/
def U64_MOD : Nat := 18446744073709551616

/-- Modulus of the Rust `u16` type. -/
def U16_MOD : Nat := 65536

/-- Modulus of the Rust `u8` type. -/
def U8_MOD : Nat := 256

/-- Session status string "initializing" (the `watch` channel's initial value). -/
def statusInitializing : String := "initializing"

/-- Session status string "idle". -/
def statusIdle : String := "idle"

/-- Session status string "connected-to-server". -/
def statusConnected : String := "connected-to-server"

/-- Panic message of `send_packet`'s `.expect(..)` on an absent socket. -/
def msgSocketNotInitialized : String := "Socket not initialized"

/-- Placeholder for the environment-dependent `io::Error` string of a failed `send_to`. -/
def msgSendFailed : String := "send failed"

/-- Error prefix of a failed `UdpSocket::bind`. -/
def msgBindFailed : String := "Failed to bind socket"

/-- Error prefix of a failed `set_broadcast`. -/
def msgBroadcastFailed : String := "Failed to set broadcast option"

/-- Error prefix of a failed `Packet::from_bytes` in `handle_packet`. -/
def msgParseFailed : String := "Failed to parse packet"

/-- Log line of a failed `recv_from` in the receive arm. -/
def msgRecvFailed : String := "Failed to receive data"

/-- Log line of the liveness watchdog when the heartbeat timeout fires. -/
def msgTimeout : String := "Heartbeat timeout detected"

/-- Log line of a failed heartbeat `send_to` inside the heartbeat task. -/
def msgHeartbeatSendFailed : String := "Failed to send heartbeat packet"

/-- Log line for an unrecognized inbound packet variant. -/
def msgUnknownPacket : String := "Received unknown packet"

/-- Log-line prefix used when `handle_packet` returns an error inside the receive arm. -/
def msgHandleError : String := "Error handling packet: "

/-- Default server address `255.255.255.255` used by `new` when none is given. -/
def defaultServerIp : String := "255.255.255.255"

/-- Board-type tag of the external `firmware_protocol` crate; the
constructors are exactly those enumerated by `clone_board_type` in
`lib.rs`, plus the `Unknown` carrier. -/
inductive BoardType
  | SlimeVRLegacy | SlimeVRDev | NodeMCU | Custom | WRoom32 | WemosD1Mini
  | TTGOTBase | ESP01 | SlimeVR | LolinC3Mini | Beetle32C3 | ESP32C3DevKitM1
  | OwoTrack | Wrangler | Mocopi | WemosWroom02 | XiaoEsp32C3 | Haritora
  | ESP32C6DevKitC1 | GloveImuSlimeVRDev | Gestures | DevReserved
  | Unknown (val : Nat)
deriving DecidableEq

/-- MCU-type tag of the external `firmware_protocol` crate; constructors
as enumerated by `clone_mcu_type` in `lib.rs`. -/
inductive McuType
  | Esp8266 | Esp32 | OwoTrackAndroid | Wrangler | OwoTrackIos | Esp32C3
  | Mocopi | Haritora | DevReserved
  | Unknown (val : Nat)
deriving DecidableEq

/-- IMU-type tag of the external `firmware_protocol` crate; constructors
as enumerated by `clone_sensor_type` in `lib.rs`. -/
inductive ImuType
  | Mpu9250 | Mpu6500 | Bno080 | Bno085 | Bno055 | Mpu6050 | Bno086
  | Bmi160 | Icm20948 | Icm42688 | Bmi270 | Lsm6ds3trc | Lsm6dsv | Lsm6dso
  | Lsm6dsr | Icm45686 | Icm45605 | AdcResistance | DevReserved
  | Unknown (val : Nat)
deriving DecidableEq

/-- Sensor status tag (`firmware_protocol::SensorStatus`). -/
inductive SensorStatus
  | Ok | Offline
deriving DecidableEq

/-- Rotation data-type tag (`firmware_protocol::SensorDataType`); opaque
to the tracker, which only forwards it. -/
inductive SensorDataType
  | Normal
  | Unknown (val : Nat)
deriving DecidableEq

/-- User-action tag (`firmware_protocol::ActionType`); opaque to the tracker. -/
inductive ActionType
  | Reset | ResetMounting | ResetYaw | PauseTracking
  | Unknown (val : Nat)
deriving DecidableEq

/-- Opaque `f32` value, carried as its raw 32 IEEE-754 bits; the tracker
never performs float arithmetic, it only forwards these fields. -/
structure F32 where
  bits : Nat
deriving DecidableEq

/-- Quaternion of four opaque `f32` components (`firmware_protocol::SlimeQuaternion`). -/
structure SlimeQuaternion where
  i : F32
  j : F32
  k : F32
  w : F32
deriving DecidableEq

/-- Server-bound (client-to-server) packet payloads built by the tracker
(`firmware_protocol::SbPacket`). -/
inductive SbPacket
  | Heartbeat
  | Ping (challenge : Nat)
  | Handshake (board : BoardType) (imu : ImuType) (mcu : McuType)
      (imu_info : Nat × Nat × Nat) (build : Nat) (firmware : String)
      (mac_address : List Nat)
  | SensorInfo (sensor_id : Nat) (sensor_type : ImuType) (sensor_status : SensorStatus)
  | RotationData (sensor_id : Nat) (data_type : SensorDataType)
      (quat : SlimeQuaternion) (calibration_info : Nat)
  | Acceleration (sensor_id : Nat) (vector : F32 × F32 × F32)
  | Battery (percentage : F32) (voltage : F32)
  | Temperature (sensor_id : Nat) (temperature : F32)
  | SignalStrength (sensor_id : Nat) (strength : Int)
  | MagAccuracy (sensor_id : Nat) (accuracy : F32)
  | UserAction (action : ActionType)
deriving DecidableEq

/-- Client-bound (server-to-client) packet payloads dispatched by
`handle_packet` (`firmware_protocol::CbPacket`); `Other` stands for the
remaining crate variants that hit the catch-all `_` arm. -/
inductive CbPacket
  | Heartbeat
  | Ping (challenge : Nat)
  | Discovery
  | HandshakeResponse (version : Nat)
  | Other (tag : Nat)
deriving DecidableEq

/-- Typed outbound datagram, `Packet::new(sequence_number, payload)`. -/
structure Packet where
  seq : Nat
  data : SbPacket
deriving DecidableEq

/-- Shared mutable session state (`TrackerState` behind `Arc<Mutex<..>>`). -/
structure TrackerState where
  status : String
  packet_number : Nat
  last_received_packet_time : Nat
deriving DecidableEq

/-- Registered virtual sensor. -/
structure Sensor where
  sensor_id : Nat
  sensor_type : ImuType
  sensor_status : SensorStatus
deriving DecidableEq

/-- The tracker instance (`EmulatedTracker`).  `socket` models the
`Option<Arc<UdpSocket>>` field by its presence; `published_status` is the
latest value in the `watch` status channel; `last_heartbeat` models the
`Arc<Mutex<SystemTime>>` shared with the liveness watchdog, in
milliseconds of an external monotonic clock. -/
structure EmulatedTracker where
  mac_address : List Nat
  firmware_version : String
  board_type : BoardType
  mcu_type : McuType
  server_timeout : Nat
  server_ip : String
  server_port : Nat
  debug : Bool
  sensors : List Sensor
  state : TrackerState
  socket : Option Unit
  published_status : String
  last_heartbeat : Nat
deriving DecidableEq

/-- Result of a fallible Rust call: an `Ok` value, an `Err(String)`
return, or a panic (`expect`/`unwrap`), which Rust surfaces by unwinding
rather than by returning. -/
inductive Outcome (α : Type)
  | ok (a : α)
  | err (e : String)
  | panicked (msg : String)
deriving DecidableEq

/-- Externally observable action of an operation: a datagram sent to the
server, a value published on the status channel, or a log line. -/
inductive Event
  | sent (p : Packet)
  | published (s : String)
  | logged (s : String)
deriving DecidableEq

/-- Packaged result of an operation: its return/panic outcome, the
tracker afterwards, and the events emitted, in order. -/
structure OpResult (α : Type) where
  res : Outcome α
  tracker : EmulatedTracker
  events : List Event
deriving DecidableEq

/-- Sequence numbers of the datagrams sent in an event trace, in order. -/
def seqsOf (evs : List Event) : List Nat :=
  evs.filterMap fun e =>
    match e with
    | Event.sent p => some p.seq
    | _ => none

/-- Datagrams sent in an event trace, in order. -/
def sentOf (evs : List Event) : List Packet :=
  evs.filterMap fun e =>
    match e with
    | Event.sent p => some p
    | _ => none

/-- Status values published on the status channel in an event trace, in order. -/
def publishedOf (evs : List Event) : List String :=
  evs.filterMap fun e =>
    match e with
    | Event.published s => some s
    | _ => none

/-- Constructor `EmulatedTracker::new` (always returns `Ok` in the
source; the defaults mirror the `unwrap_or` calls). -/
def new (mac_address : List Nat) (firmware_version : String)
    (board_type : Option BoardType) (mcu_type : Option McuType)
    (server_ip : Option String) (server_discovery_port : Option Nat)
    (server_timeout_ms : Option Nat) (debug : Option Bool) : EmulatedTracker :=
  { mac_address := mac_address
    firmware_version := firmware_version
    board_type := board_type.getD (BoardType.Unknown 0)
    mcu_type := mcu_type.getD (McuType.Unknown 0)
    server_ip := server_ip.getD defaultServerIp
    server_port := server_discovery_port.getD 6969
    server_timeout := server_timeout_ms.getD 5000
    debug := debug.getD false
    sensors := []
    state := { status := statusInitializing
               packet_number := 0
               last_received_packet_time := 0 }
    socket := none
    published_status := statusInitializing
    last_heartbeat := 0 }

/-- Snapshot accessor `get_state` (clones the locked `TrackerState`). -/
def get_state (t : EmulatedTracker) : TrackerState :=
  t.state

/-- Accessor `subscribe_status`: a receiver on the status channel; its
current value is the latest published one. -/
def subscribe_status (t : EmulatedTracker) : String :=
  t.published_status

/-- Identity clone `clone_board_type`; the source's catch-all
`_ => Unknown(0)` arm covers crate variants outside this enumeration and
is therefore not represented. -/
def clone_board_type (t : EmulatedTracker) : BoardType :=
  match t.board_type with
  | BoardType.SlimeVRLegacy => BoardType.SlimeVRLegacy
  | BoardType.SlimeVRDev => BoardType.SlimeVRDev
  | BoardType.NodeMCU => BoardType.NodeMCU
  | BoardType.Custom => BoardType.Custom
  | BoardType.WRoom32 => BoardType.WRoom32
  | BoardType.WemosD1Mini => BoardType.WemosD1Mini
  | BoardType.TTGOTBase => BoardType.TTGOTBase
  | BoardType.ESP01 => BoardType.ESP01
  | BoardType.SlimeVR => BoardType.SlimeVR
  | BoardType.LolinC3Mini => BoardType.LolinC3Mini
  | BoardType.Beetle32C3 => BoardType.Beetle32C3
  | BoardType.ESP32C3DevKitM1 => BoardType.ESP32C3DevKitM1
  | BoardType.OwoTrack => BoardType.OwoTrack
  | BoardType.Wrangler => BoardType.Wrangler
  | BoardType.Mocopi => BoardType.Mocopi
  | BoardType.WemosWroom02 => BoardType.WemosWroom02
  | BoardType.XiaoEsp32C3 => BoardType.XiaoEsp32C3
  | BoardType.Haritora => BoardType.Haritora
  | BoardType.ESP32C6DevKitC1 => BoardType.ESP32C6DevKitC1
  | BoardType.GloveImuSlimeVRDev => BoardType.GloveImuSlimeVRDev
  | BoardType.Gestures => BoardType.Gestures
  | BoardType.DevReserved => BoardType.DevReserved
  | BoardType.Unknown val => BoardType.Unknown val

/-- Identity clone `clone_mcu_type`. -/
def clone_mcu_type (t : EmulatedTracker) : McuType :=
  match t.mcu_type with
  | McuType.Esp8266 => McuType.Esp8266
  | McuType.Esp32 => McuType.Esp32
  | McuType.OwoTrackAndroid => McuType.OwoTrackAndroid
  | McuType.Wrangler => McuType.Wrangler
  | McuType.OwoTrackIos => McuType.OwoTrackIos
  | McuType.Esp32C3 => McuType.Esp32C3
  | McuType.Mocopi => McuType.Mocopi
  | McuType.Haritora => McuType.Haritora
  | McuType.DevReserved => McuType.DevReserved
  | McuType.Unknown val => McuType.Unknown val

/-- Identity clone `clone_sensor_type`. -/
def clone_sensor_type (imu_type : ImuType) : ImuType :=
  match imu_type with
  | ImuType.Mpu9250 => ImuType.Mpu9250
  | ImuType.Mpu6500 => ImuType.Mpu6500
  | ImuType.Bno080 => ImuType.Bno080
  | ImuType.Bno085 => ImuType.Bno085
  | ImuType.Bno055 => ImuType.Bno055
  | ImuType.Mpu6050 => ImuType.Mpu6050
  | ImuType.Bno086 => ImuType.Bno086
  | ImuType.Bmi160 => ImuType.Bmi160
  | ImuType.Icm20948 => ImuType.Icm20948
  | ImuType.Icm42688 => ImuType.Icm42688
  | ImuType.Bmi270 => ImuType.Bmi270
  | ImuType.Lsm6ds3trc => ImuType.Lsm6ds3trc
  | ImuType.Lsm6dsv => ImuType.Lsm6dsv
  | ImuType.Lsm6dso => ImuType.Lsm6dso
  | ImuType.Lsm6dsr => ImuType.Lsm6dsr
  | ImuType.Icm45686 => ImuType.Icm45686
  | ImuType.Icm45605 => ImuType.Icm45605
  | ImuType.AdcResistance => ImuType.AdcResistance
  | ImuType.DevReserved => ImuType.DevReserved
  | ImuType.Unknown val => ImuType.Unknown val

/-- Identity clone `clone_sensor_status`. -/
def clone_sensor_status (status : SensorStatus) : SensorStatus :=
  match status with
  | SensorStatus.Ok => SensorStatus.Ok
  | SensorStatus.Offline => SensorStatus.Offline

/-- Shared counter bump `get_packet_number`: increments `packet_number`
under the lock and returns the new value (always `Ok` in the source). -/
def get_packet_number (t : EmulatedTracker) : Nat × EmulatedTracker :=
  let pn := (t.state.packet_number + 1) % U64_MOD
  (pn, { t with state := { t.state with packet_number := pn } })

/-- Worker `send_packet`: obtains a fresh sequence number, then accesses
the socket via `.expect("Socket not initialized")` — a *panic*, not an
`Err` return, when the socket is absent — and finally `send_to`s the
encoded packet, mapping a send failure to an `Err` string.  Note the
counter is incremented before the socket presence is checked. -/
def send_packet (sendOk : Bool) (t : EmulatedTracker) (data : SbPacket) : OpResult Unit :=
  let r := get_packet_number t
  match r.2.socket with
  | none => ⟨Outcome.panicked msgSocketNotInitialized, r.2, []⟩
  | some _ =>
    if sendOk then
      ⟨Outcome.ok (), r.2, [Event.sent ⟨r.1, data⟩]⟩
    else
      ⟨Outcome.err msgSendFailed, r.2, []⟩

/-- Helper `send_sensor_info`: announces one sensor via a `SensorInfo` packet. -/
def send_sensor_info (sendOk : Bool) (t : EmulatedTracker) (sensor : Sensor) : OpResult Unit :=
  send_packet sendOk t
    (SbPacket.SensorInfo sensor.sensor_id (clone_sensor_type sensor.sensor_type)
      (clone_sensor_status sensor.sensor_status))

/-- Operation `add_sensor`: assigns `sensor_id = sensors.len() as u8`
(truncated to 8 bits), sends the `SensorInfo` announce, and only on
announce success (`?` operator) pushes the sensor onto the registry. -/
def add_sensor (sendOk : Bool) (t : EmulatedTracker) (sensor_type : ImuType)
    (sensor_status : SensorStatus) : OpResult Unit :=
  let sensor_id := t.sensors.length % U8_MOD
  let sensor : Sensor := { sensor_id := sensor_id
                           sensor_type := sensor_type
                           sensor_status := sensor_status }
  let r := send_sensor_info sendOk t sensor
  match r.res with
  | Outcome.ok _ =>
    ⟨Outcome.ok (), { r.tracker with sensors := r.tracker.sensors ++ [sensor] }, r.events⟩
  | o => ⟨o, r.tracker, r.events⟩

/-- Telemetry sender `send_rotation`. -/
def send_rotation (sendOk : Bool) (t : EmulatedTracker) (sensor_id : Nat)
    (data_type : SensorDataType) (rotation_data : SlimeQuaternion)
    (accuracy : Nat) : OpResult Unit :=
  send_packet sendOk t (SbPacket.RotationData sensor_id data_type rotation_data accuracy)

/-- Telemetry sender `send_acceleration`. -/
def send_acceleration (sendOk : Bool) (t : EmulatedTracker) (sensor_id : Nat)
    (acceleration : F32 × F32 × F32) : OpResult Unit :=
  send_packet sendOk t (SbPacket.Acceleration sensor_id acceleration)

/-- Telemetry sender `send_battery_level`. -/
def send_battery_level (sendOk : Bool) (t : EmulatedTracker) (percentage : F32)
    (voltage : F32) : OpResult Unit :=
  send_packet sendOk t (SbPacket.Battery percentage voltage)

/-- Telemetry sender `send_temperature`. -/
def send_temperature (sendOk : Bool) (t : EmulatedTracker) (sensor_id : Nat)
    (temperature : F32) : OpResult Unit :=
  send_packet sendOk t (SbPacket.Temperature sensor_id temperature)

/-- Telemetry sender `send_signal_strength` (`strength` is an `i8`). -/
def send_signal_strength (sendOk : Bool) (t : EmulatedTracker) (sensor_id : Nat)
    (strength : Int) : OpResult Unit :=
  send_packet sendOk t (SbPacket.SignalStrength sensor_id strength)

/-- Telemetry sender `send_magnetometer_accuracy`. -/
def send_magnetometer_accuracy (sendOk : Bool) (t : EmulatedTracker) (sensor_id : Nat)
    (accuracy : F32) : OpResult Unit :=
  send_packet sendOk t (SbPacket.MagAccuracy sensor_id accuracy)

/-- Telemetry sender `send_user_action`. -/
def send_user_action (sendOk : Bool) (t : EmulatedTracker) (action : ActionType) : OpResult Unit :=
  send_packet sendOk t (SbPacket.UserAction action)

/-- Discovery-phase `send_handshake`: a fixed sequence number 0 and the
full identity; an absent socket here is an `Err` return (`ok_or`), unlike
`send_packet`'s panic. -/
def send_handshake (sendOk : Bool) (t : EmulatedTracker) : OpResult Unit :=
  let data := SbPacket.Handshake (clone_board_type t)
    (clone_sensor_type (ImuType.Unknown 0)) (clone_mcu_type t) (0, 0, 0) 13
    t.firmware_version t.mac_address
  match t.socket with
  | none => ⟨Outcome.err msgSocketNotInitialized, t, []⟩
  | some _ =>
    if sendOk then ⟨Outcome.ok (), t, [Event.sent ⟨0, data⟩]⟩
    else ⟨Outcome.err msgSendFailed, t, []⟩

/-- Operation `deinit`: a no-op returning `Ok` when the status is already
`initializing`; otherwise it drops the socket, publishes `initializing`,
and sets the status to `initializing`.  `packet_number` and the sensor
registry are untouched in both branches. -/
def deinit (t : EmulatedTracker) : OpResult Unit :=
  if t.state.status = statusInitializing then
    ⟨Outcome.ok (), t, []⟩
  else
    ⟨Outcome.ok (),
     { t with socket := none
              published_status := statusInitializing
              state := { t.state with status := statusInitializing } },
     [Event.published statusInitializing]⟩

/-- Entry part of `init` up to entering the discovery/receive loop: early
`Ok` return when the status is not `initializing`; otherwise it publishes
and sets `idle`, binds the socket (failure is an `Err` return that leaves
the status already flipped to `idle`), enables broadcast likewise, and
stores the socket.  The spawned heartbeat and watchdog tasks and the
select loop are modelled by the separate step functions below. -/
def init_step (bindOk broadcastOk : Bool) (t : EmulatedTracker) : OpResult Unit :=
  if t.state.status ≠ statusInitializing then
    ⟨Outcome.ok (), t, []⟩
  else
    let t1 := { t with published_status := statusIdle
                       state := { t.state with status := statusIdle } }
    if bindOk = false then
      ⟨Outcome.err msgBindFailed, t1, [Event.published statusIdle]⟩
    else if broadcastOk = false then
      ⟨Outcome.err msgBroadcastFailed, t1, [Event.published statusIdle]⟩
    else
      ⟨Outcome.ok (), { t1 with socket := some () }, [Event.published statusIdle]⟩

/-- Dispatch `handle_packet` on the decode result of an inbound datagram:
a decode failure is an `Err` return; `Heartbeat` and `Ping` are answered
through `send_packet` (the ping reply echoes the same challenge);
`Discovery` and `HandshakeResponse` do nothing; anything else is logged. -/
def handle_packet (sendOk : Bool) (t : EmulatedTracker)
    (decoded : Option (Nat × CbPacket)) : OpResult Unit :=
  match decoded with
  | none => ⟨Outcome.err msgParseFailed, t, []⟩
  | some (_seq, packet_data) =>
    match packet_data with
    | CbPacket.Heartbeat => send_packet sendOk t SbPacket.Heartbeat
    | CbPacket.Ping challenge => send_packet sendOk t (SbPacket.Ping challenge)
    | CbPacket.Discovery => ⟨Outcome.ok (), t, []⟩
    | CbPacket.HandshakeResponse _ => ⟨Outcome.ok (), t, []⟩
    | CbPacket.Other _ => ⟨Outcome.ok (), t, [Event.logged msgUnknownPacket]⟩

/-- Status block of the inbound-datagram arm (run under the lock,
*before any decoding* is attempted): flip the status to
`connected-to-server` (publishing the change) unless it already is, and
update the truncated 16-bit receipt timestamp. -/
def mark_connected (nowMs : Nat) (t : EmulatedTracker) : EmulatedTracker × List Event :=
  let p1 : EmulatedTracker × List Event :=
    if t.state.status ≠ statusConnected then
      ({ t with state := { t.state with status := statusConnected }
                published_status := statusConnected },
       [Event.published statusConnected])
    else (t, [])
  ({ p1.1 with
     state := { p1.1.state with last_received_packet_time := nowMs % U16_MOD } }, p1.2)

/-- Heartbeat-observation block of the inbound-datagram arm: when the
datagram decodes to a `Heartbeat`, record "last heartbeat observed now"
for the liveness watchdog. -/
def note_heartbeat (nowMs : Nat) (decoded : Option (Nat × CbPacket))
    (t : EmulatedTracker) : EmulatedTracker :=
  match decoded with
  | some (_, CbPacket.Heartbeat) => { t with last_heartbeat := nowMs }
  | _ => t

/-- Tail of the inbound-datagram arm: run `handle_packet` and log (never
propagate) its error; a panic would tear the task down, leaving the state
as `handle_packet` left it. -/
def recv_finish (evs1 : List Event) (r : OpResult Unit) : EmulatedTracker × List Event :=
  match r.res with
  | Outcome.ok _ => (r.tracker, evs1 ++ r.events)
  | Outcome.err e => (r.tracker, evs1 ++ r.events ++ [Event.logged (msgHandleError ++ e)])
  | Outcome.panicked _ => (r.tracker, evs1 ++ r.events)

/-- One pass of the inbound-datagram arm of `init`'s select loop.  The
source first checks the socket (`if let Some(socket)`), then receives
(`recvOk` models `recv_from` success), then runs the status block, the
heartbeat-observation block, and `handle_packet`, in that order. -/
def recv_step (nowMs : Nat) (decoded : Option (Nat × CbPacket)) (recvOk sendOk : Bool)
    (t : EmulatedTracker) : EmulatedTracker × List Event :=
  match t.socket with
  | none => (t, [])
  | some _ =>
    if recvOk = false then
      (t, [Event.logged msgRecvFailed])
    else
      let p1 := mark_connected nowMs t
      let t3 := note_heartbeat nowMs decoded p1.1
      recv_finish p1.2 (handle_packet sendOk t3 decoded)

/-- One pass of the discovery-tick arm of `init`'s select loop: while not
connected, send a handshake; once connected, the loop breaks (no action). -/
def discovery_tick_step (sendOk : Bool) (t : EmulatedTracker) : OpResult Unit :=
  if t.state.status ≠ statusConnected then send_handshake sendOk t
  else ⟨Outcome.ok (), t, []⟩

/-- One iteration of the liveness-watchdog task spawned by `init`: after
sleeping for `server_timeout`, it compares the elapsed time since the
last recorded heartbeat (`nowMs` is the external clock) against the
timeout, and when exceeded it logs and sets `state.status` back to
`initializing`.  Note the source neither publishes on the status channel
nor touches the socket here. -/
def watchdog_step (nowMs : Nat) (t : EmulatedTracker) : EmulatedTracker × List Event :=
  if nowMs - t.last_heartbeat > t.server_timeout then
    ({ t with state := { t.state with status := statusInitializing } },
     [Event.logged msgTimeout])
  else (t, [])

/-- One iteration of the heartbeat task spawned by `start_heartbeat`: it
terminates when the status channel's current value is `initializing`;
otherwise it bumps the shared `packet_number` and sends a `Heartbeat`
with that sequence number on its captured socket handle (send failures
are logged, never fatal). -/
def heartbeat_step (sendOk : Bool) (t : EmulatedTracker) : EmulatedTracker × List Event :=
  if t.published_status = statusInitializing then
    (t, [])
  else
    let pn := (t.state.packet_number + 1) % U64_MOD
    let t1 := { t with state := { t.state with packet_number := pn } }
    if sendOk then (t1, [Event.sent ⟨pn, SbPacket.Heartbeat⟩])
    else (t1, [Event.logged msgHeartbeatSendFailed])

/-- Fold of successive successful `send_packet` calls, collecting all events. -/
def sendMany (t : EmulatedTracker) : List SbPacket → EmulatedTracker × List Event
  | [] => (t, [])
  | d :: ds =>
    let r := send_packet true t d
    let rest := sendMany r.tracker ds
    (rest.1, r.events ++ rest.2)

/-- Fold of `k` successive successful `add_sensor` calls. -/
def addSensors (t : EmulatedTracker) : Nat → EmulatedTracker
  | 0 => t
  | n + 1 => (add_sensor true (addSensors t n) ImuType.Mpu6050 SensorStatus.Ok).tracker

/-- States reachable from a freshly constructed tracker by successful
`init` calls, `deinit` calls, inbound-datagram passes and heartbeat-task
iterations (the liveness-watchdog step is deliberately excluded: it
breaks the socket/status invariant, see the C4 theorems). -/
inductive Reachable : EmulatedTracker → Prop
  | base (mac : List Nat) (fw : String) (b : Option BoardType) (m : Option McuType)
      (ip : Option String) (port timeoutMs : Option Nat) (dbg : Option Bool) :
      Reachable (new mac fw b m ip port timeoutMs dbg)
  | init_ok {t : EmulatedTracker} : Reachable t → Reachable (init_step true true t).tracker
  | deinit_step {t : EmulatedTracker} : Reachable t → Reachable (deinit t).tracker
  | recv {t : EmulatedTracker} (nowMs : Nat) (decoded : Option (Nat × CbPacket))
      (recvOk sendOk : Bool) :
      Reachable t → Reachable (recv_step nowMs decoded recvOk sendOk t).1
  | heartbeat {t : EmulatedTracker} (sendOk : Bool) :
      Reachable t → Reachable (heartbeat_step sendOk t).1

/-- Concrete tracker used by the claim witnesses and counterexamples:
freshly constructed with all-default configuration. -/
def tracker0 : EmulatedTracker :=
  new [222, 173, 190, 239, 1, 2] defaultServerIp none none none none none none

/-- Concrete tracker after one successful `init` entry: status `idle`,
socket present. -/
def trackerIdle : EmulatedTracker :=
  (init_step true true tracker0).tracker

/-- Concrete tracker after additionally receiving one well-formed
heartbeat datagram: status `connected-to-server`, socket present. -/
def trackerConnected : EmulatedTracker :=
  (recv_step 5 (some (1, CbPacket.Heartbeat)) true true trackerIdle).1

/-- Concrete tracker after the liveness watchdog fires on
`trackerConnected` (no heartbeat for longer than the default 5000 ms):
status is back to `initializing` but the socket is still present. -/
def trackerTimedOut : EmulatedTracker :=
  (watchdog_step 6000 trackerConnected).1

/-! ### Helper lemmas on the individual operations -/

theorem publishedOf_append (a b : List Event) :
    publishedOf (a ++ b) = publishedOf a ++ publishedOf b :=
  List.filterMap_append a b _

theorem publishedOf_nil : publishedOf [] = [] := rfl

theorem publishedOf_logged (s : String) : publishedOf [Event.logged s] = [] := rfl

theorem seqsOf_append (a b : List Event) :
    seqsOf (a ++ b) = seqsOf a ++ seqsOf b :=
  List.filterMap_append a b _

theorem send_packet_tracker_eq (sendOk : Bool) (t : EmulatedTracker) (d : SbPacket) :
    (send_packet sendOk t d).tracker =
      { t with state := { t.state with
          packet_number := (t.state.packet_number + 1) % U64_MOD } } := by
  cases h : t.socket <;> cases sendOk <;> simp [send_packet, get_packet_number, h]

theorem send_packet_socket (sendOk : Bool) (t : EmulatedTracker) (d : SbPacket) :
    (send_packet sendOk t d).tracker.socket = t.socket := by
  rw [send_packet_tracker_eq]

theorem send_packet_status (sendOk : Bool) (t : EmulatedTracker) (d : SbPacket) :
    (send_packet sendOk t d).tracker.state.status = t.state.status := by
  rw [send_packet_tracker_eq]

theorem send_packet_some_true (t : EmulatedTracker) (d : SbPacket) (hs : t.socket = some ()) :
    send_packet true t d =
      ⟨Outcome.ok (),
       { t with state := { t.state with
           packet_number := (t.state.packet_number + 1) % U64_MOD } },
       [Event.sent ⟨(t.state.packet_number + 1) % U64_MOD, d⟩]⟩ := by
  simp [send_packet, get_packet_number, hs]

theorem send_packet_some_false (t : EmulatedTracker) (d : SbPacket) (hs : t.socket = some ()) :
    send_packet false t d =
      ⟨Outcome.err msgSendFailed,
       { t with state := { t.state with
           packet_number := (t.state.packet_number + 1) % U64_MOD } },
       []⟩ := by
  simp [send_packet, get_packet_number, hs]

theorem send_packet_none (sendOk : Bool) (t : EmulatedTracker) (d : SbPacket)
    (hs : t.socket = none) :
    send_packet sendOk t d =
      ⟨Outcome.panicked msgSocketNotInitialized,
       { t with state := { t.state with
           packet_number := (t.state.packet_number + 1) % U64_MOD } },
       []⟩ := by
  simp [send_packet, get_packet_number, hs]

theorem send_packet_no_publish (sendOk : Bool) (t : EmulatedTracker) (d : SbPacket) :
    publishedOf (send_packet sendOk t d).events = [] := by
  cases h : t.socket <;> cases sendOk <;>
    simp [send_packet, get_packet_number, h, publishedOf]

theorem handle_packet_socket (sendOk : Bool) (t : EmulatedTracker)
    (decoded : Option (Nat × CbPacket)) :
    (handle_packet sendOk t decoded).tracker.socket = t.socket := by
  match decoded with
  | none => rfl
  | some (s, pd) => cases pd <;> simp [handle_packet, send_packet_socket]

theorem handle_packet_status (sendOk : Bool) (t : EmulatedTracker)
    (decoded : Option (Nat × CbPacket)) :
    (handle_packet sendOk t decoded).tracker.state.status = t.state.status := by
  match decoded with
  | none => rfl
  | some (s, pd) => cases pd <;> simp [handle_packet, send_packet_status]

theorem handle_packet_no_publish (sendOk : Bool) (t : EmulatedTracker)
    (decoded : Option (Nat × CbPacket)) :
    publishedOf (handle_packet sendOk t decoded).events = [] := by
  match decoded with
  | none => rfl
  | some (s, pd) =>
    cases pd <;> first
      | exact send_packet_no_publish _ _ _
      | rfl

theorem mark_connected_socket (nowMs : Nat) (t : EmulatedTracker) :
    (mark_connected nowMs t).1.socket = t.socket := by
  by_cases h : t.state.status ≠ statusConnected <;> simp [mark_connected, h]

theorem mark_connected_status (nowMs : Nat) (t : EmulatedTracker) :
    (mark_connected nowMs t).1.state.status = statusConnected := by
  by_cases h : t.state.status ≠ statusConnected <;> simp [mark_connected, h]
  simpa using not_not.mp h

theorem mark_connected_snd_of_ne (nowMs : Nat) (t : EmulatedTracker)
    (h : t.state.status ≠ statusConnected) :
    (mark_connected nowMs t).2 = [Event.published statusConnected] := by
  simp [mark_connected, h]

theorem mark_connected_snd_of_eq (nowMs : Nat) (t : EmulatedTracker)
    (h : t.state.status = statusConnected) :
    (mark_connected nowMs t).2 = [] := by
  simp [mark_connected, h]

theorem note_heartbeat_socket (nowMs : Nat) (decoded : Option (Nat × CbPacket))
    (t : EmulatedTracker) : (note_heartbeat nowMs decoded t).socket = t.socket := by
  match decoded with
  | none => rfl
  | some (s, pd) => cases pd <;> rfl

theorem note_heartbeat_status (nowMs : Nat) (decoded : Option (Nat × CbPacket))
    (t : EmulatedTracker) :
    (note_heartbeat nowMs decoded t).state.status = t.state.status := by
  match decoded with
  | none => rfl
  | some (s, pd) => cases pd <;> rfl

theorem recv_finish_fst (evs1 : List Event) (r : OpResult Unit) :
    (recv_finish evs1 r).1 = r.tracker := by
  cases h : r.res <;> simp [recv_finish, h]

theorem recv_finish_published (evs1 : List Event) (r : OpResult Unit) :
    publishedOf (recv_finish evs1 r).2 = publishedOf evs1 ++ publishedOf r.events := by
  cases h : r.res <;> simp [recv_finish, h, publishedOf_append, publishedOf]

theorem recv_step_socket (nowMs : Nat) (decoded : Option (Nat × CbPacket))
    (recvOk sendOk : Bool) (t : EmulatedTracker) :
    (recv_step nowMs decoded recvOk sendOk t).1.socket = t.socket := by
  cases h : t.socket with
  | none => simp [recv_step, h]
  | some u =>
    cases recvOk with
    | false => simp [recv_step, h]
    | true =>
      simp [recv_step, h, recv_finish_fst, handle_packet_socket, note_heartbeat_socket,
        mark_connected_socket]

theorem recv_step_status (nowMs : Nat) (decoded : Option (Nat × CbPacket))
    (sendOk : Bool) (t : EmulatedTracker) (hs : t.socket = some ()) :
    (recv_step nowMs decoded true sendOk t).1.state.status = statusConnected := by
  simp [recv_step, hs, recv_finish_fst, handle_packet_status, note_heartbeat_status,
    mark_connected_status]

theorem recv_step_published_of_connected (nowMs : Nat) (decoded : Option (Nat × CbPacket))
    (recvOk sendOk : Bool) (t : EmulatedTracker)
    (h : t.state.status = statusConnected) :
    publishedOf (recv_step nowMs decoded recvOk sendOk t).2 = [] := by
  cases hso : t.socket with
  | none => simp [recv_step, hso, publishedOf_nil]
  | some u =>
    cases recvOk with
    | false => simp [recv_step, hso, publishedOf_logged]
    | true =>
      simp [recv_step, hso, recv_finish_published, handle_packet_no_publish,
        mark_connected_snd_of_eq _ _ h, publishedOf_nil]

theorem heartbeat_step_socket (sendOk : Bool) (t : EmulatedTracker) :
    (heartbeat_step sendOk t).1.socket = t.socket := by
  by_cases h : t.published_status = statusInitializing <;> cases sendOk <;>
    simp [heartbeat_step, h]

theorem heartbeat_step_status (sendOk : Bool) (t : EmulatedTracker) :
    (heartbeat_step sendOk t).1.state.status = t.state.status := by
  by_cases h : t.published_status = statusInitializing <;> cases sendOk <;>
    simp [heartbeat_step, h]

theorem sendMany_spec (ds : List SbPacket) (t : EmulatedTracker)
    (hs : t.socket = some ()) (hn : t.state.packet_number + ds.length < U64_MOD) :
    seqsOf (sendMany t ds).2 = List.range' (t.state.packet_number + 1) ds.length ∧
    (sendMany t ds).1 =
      { t with state := { t.state with
          packet_number := t.state.packet_number + ds.length } } := by
  induction ds generalizing t with
  | nil =>
    constructor
    · rfl
    · show t = _
      rfl
  | cons d ds ih =>
    simp only [List.length_cons] at hn ⊢
    have hlt : t.state.packet_number + 1 < U64_MOD := by omega
    have hmod : (t.state.packet_number + 1) % U64_MOD = t.state.packet_number + 1 :=
      Nat.mod_eq_of_lt hlt
    obtain ⟨ih1, ih2⟩ := ih { t with state := { t.state with
        packet_number := t.state.packet_number + 1 } } hs
      (show t.state.packet_number + 1 + ds.length < U64_MOD by omega)
    rw [sendMany, send_packet_some_true t d hs, hmod]
    constructor
    · show seqsOf ([Event.sent ⟨t.state.packet_number + 1, d⟩] ++
        (sendMany { t with state := { t.state with
            packet_number := t.state.packet_number + 1 } } ds).2) = _
      rw [seqsOf_append, ih1, List.range'_succ]
      rfl
    · show (sendMany { t with state := { t.state with
          packet_number := t.state.packet_number + 1 } } ds).1 = _
      rw [ih2]
      show ({ t with state := { t.state with
          packet_number := t.state.packet_number + 1 + ds.length } }) = _
      rw [show t.state.packet_number + 1 + ds.length
            = t.state.packet_number + (ds.length + 1) by omega]

theorem add_sensor_some_true (t : EmulatedTracker) (ty : ImuType) (st : SensorStatus)
    (hs : t.socket = some ()) :
    add_sensor true t ty st =
      ⟨Outcome.ok (),
       { t with
         state := { t.state with
             packet_number := (t.state.packet_number + 1) % U64_MOD }
         sensors := t.sensors ++ [⟨t.sensors.length % U8_MOD, ty, st⟩] },
       [Event.sent ⟨(t.state.packet_number + 1) % U64_MOD,
          SbPacket.SensorInfo (t.sensors.length % U8_MOD) (clone_sensor_type ty)
            (clone_sensor_status st)⟩]⟩ := by
  simp [add_sensor, send_sensor_info, send_packet_some_true t _ hs]

theorem add_sensor_some_false (t : EmulatedTracker) (ty : ImuType) (st : SensorStatus)
    (hs : t.socket = some ()) :
    add_sensor false t ty st =
      ⟨Outcome.err msgSendFailed,
       { t with state := { t.state with
           packet_number := (t.state.packet_number + 1) % U64_MOD } },
       []⟩ := by
  simp [add_sensor, send_sensor_info, send_packet_some_false t _ hs]

theorem addSensors_spec (k : Nat) (t : EmulatedTracker) (hs : t.socket = some ()) :
    (addSensors t k).socket = some () ∧
    (addSensors t k).state.status = t.state.status ∧
    (addSensors t k).sensors.length = t.sensors.length + k ∧
    (addSensors t k).sensors.map Sensor.sensor_id =
      t.sensors.map Sensor.sensor_id ++
        (List.range' t.sensors.length k).map (fun i => i % U8_MOD) := by
  induction k with
  | zero => simp [addSensors, hs]
  | succ n ih =>
    obtain ⟨ihs, ihst, ihlen, ihids⟩ := ih
    rw [addSensors, add_sensor_some_true _ _ _ ihs]
    refine ⟨ihs, ihst, ?_, ?_⟩
    · simp [ihlen]
      omega
    · simp only [List.map_append, ihids, ihlen, List.map_cons, List.map_nil]
      rw [List.range'_concat, List.map_append]
      simp

theorem publishedOf_published (s : String) : publishedOf [Event.published s] = [s] := rfl

theorem deinit_active (t : EmulatedTracker) (h : t.state.status ≠ statusInitializing) :
    deinit t = ⟨Outcome.ok (),
      { t with socket := none
               published_status := statusInitializing
               state := { t.state with status := statusInitializing } },
      [Event.published statusInitializing]⟩ := by
  simp [deinit, h]

theorem deinit_pn (t : EmulatedTracker) :
    (deinit t).tracker.state.packet_number = t.state.packet_number := by
  by_cases h : t.state.status = statusInitializing <;> simp [deinit, h]

theorem deinit_sensors (t : EmulatedTracker) :
    (deinit t).tracker.sensors = t.sensors := by
  by_cases h : t.state.status = statusInitializing <;> simp [deinit, h]

theorem deinit_status (t : EmulatedTracker) :
    (deinit t).tracker.state.status = statusInitializing := by
  by_cases h : t.state.status = statusInitializing <;> simp [deinit, h]

theorem init_step_fresh (t : EmulatedTracker) (h : t.state.status = statusInitializing) :
    init_step true true t = ⟨Outcome.ok (),
      { t with socket := some ()
               published_status := statusIdle
               state := { t.state with status := statusIdle } },
      [Event.published statusIdle]⟩ := by
  simp [init_step, h]

theorem init_step_pn (bindOk broadcastOk : Bool) (t : EmulatedTracker) :
    (init_step bindOk broadcastOk t).tracker.state.packet_number =
      t.state.packet_number := by
  by_cases h : t.state.status = statusInitializing <;>
    cases bindOk <;> cases broadcastOk <;> simp [init_step, h]

theorem init_step_sensors (bindOk broadcastOk : Bool) (t : EmulatedTracker) :
    (init_step bindOk broadcastOk t).tracker.sensors = t.sensors := by
  by_cases h : t.state.status = statusInitializing <;>
    cases bindOk <;> cases broadcastOk <;> simp [init_step, h]

theorem init_step_socket_fresh (t : EmulatedTracker)
    (h : t.state.status = statusInitializing) :
    (init_step true true t).tracker.socket = some () := by
  simp [init_step_fresh t h]

theorem range'_split (s m n : Nat) :
    List.range' s (m + n) = List.range' s m ++ List.range' (s + m) n := by
  rw [Nat.add_comm m n, ← List.range'_append s m n 1, Nat.one_mul]

/-! ### Claim C1 -/

/-- C1 (corrected): when a telemetry sender is called while the socket is
absent, the call does not return an error to the caller — it *panics*
(the source reads the socket via `.expect("Socket not initialized")`),
and the shared `packet_number` has already been incremented by then.
This holds for all seven telemetry senders. -/
theorem C1_senders_panic_without_socket (t : EmulatedTracker) (hs : t.socket = none)
    (sendOk : Bool) (sid acc : Nat) (dt : SensorDataType) (q : SlimeQuaternion)
    (v3 : F32 × F32 × F32) (pc vt tp ma : F32) (sg : Int) (act : ActionType) :
    (send_rotation sendOk t sid dt q acc).res = Outcome.panicked msgSocketNotInitialized ∧
    (send_acceleration sendOk t sid v3).res = Outcome.panicked msgSocketNotInitialized ∧
    (send_battery_level sendOk t pc vt).res = Outcome.panicked msgSocketNotInitialized ∧
    (send_temperature sendOk t sid tp).res = Outcome.panicked msgSocketNotInitialized ∧
    (send_signal_strength sendOk t sid sg).res = Outcome.panicked msgSocketNotInitialized ∧
    (send_magnetometer_accuracy sendOk t sid ma).res = Outcome.panicked msgSocketNotInitialized ∧
    (send_user_action sendOk t act).res = Outcome.panicked msgSocketNotInitialized := by
  refine ⟨?_, ?_, ?_, ?_, ?_, ?_, ?_⟩ <;>
    simp [send_rotation, send_acceleration, send_battery_level, send_temperature,
      send_signal_strength, send_magnetometer_accuracy, send_user_action,
      send_packet_none sendOk t _ hs]

/-- C1 counterexample: on a freshly constructed tracker (no socket), a
telemetry send resolves to a panic, not to an `Err` return, refuting the
claim that the call fails by returning a `TransportError` to the caller. -/
theorem C1_counterexample :
    (send_user_action true tracker0 ActionType.Reset).res =
      Outcome.panicked msgSocketNotInitialized ∧
    (send_battery_level true tracker0 ⟨0⟩ ⟨0⟩).res =
      Outcome.panicked msgSocketNotInitialized := by
  decide

/-- C1 witness: the amended theorem applied at a concrete uninitialized tracker. -/
theorem C1_witness :
    tracker0.socket = none ∧
    ((send_rotation true tracker0 0 SensorDataType.Normal ⟨⟨0⟩, ⟨0⟩, ⟨0⟩, ⟨0⟩⟩ 42).res =
        Outcome.panicked msgSocketNotInitialized ∧
      (send_acceleration true tracker0 0 (⟨0⟩, ⟨0⟩, ⟨0⟩)).res =
        Outcome.panicked msgSocketNotInitialized ∧
      (send_battery_level true tracker0 ⟨1⟩ ⟨2⟩).res =
        Outcome.panicked msgSocketNotInitialized ∧
      (send_temperature true tracker0 0 ⟨3⟩).res =
        Outcome.panicked msgSocketNotInitialized ∧
      (send_signal_strength true tracker0 0 (-40)).res =
        Outcome.panicked msgSocketNotInitialized ∧
      (send_magnetometer_accuracy true tracker0 0 ⟨4⟩).res =
        Outcome.panicked msgSocketNotInitialized ∧
      (send_user_action true tracker0 ActionType.Reset).res =
        Outcome.panicked msgSocketNotInitialized) :=
  ⟨rfl, C1_senders_panic_without_socket tracker0 rfl true 0 42 SensorDataType.Normal
    ⟨⟨0⟩, ⟨0⟩, ⟨0⟩, ⟨0⟩⟩ (⟨0⟩, ⟨0⟩, ⟨0⟩) ⟨1⟩ ⟨2⟩ ⟨3⟩ ⟨4⟩ (-40) ActionType.Reset⟩

/-! ### Claim C2 -/

/-- C2 (amended): with the socket present, `add_sensor` returns success
iff the `SensorInfo` announce send succeeds, and the sensor is appended
to the registry iff the announce succeeds — on announce failure the `?`
operator returns before the `push`, so the registry is left unchanged. -/
theorem C2_add_sensor_append_iff_announce (t : EmulatedTracker) (ty : ImuType)
    (st : SensorStatus) (sendOk : Bool) (hs : t.socket = some ()) :
    ((add_sensor sendOk t ty st).res = Outcome.ok () ↔ sendOk = true) ∧
    (add_sensor sendOk t ty st).tracker.sensors =
      (if sendOk then t.sensors ++ [⟨t.sensors.length % U8_MOD, ty, st⟩]
       else t.sensors) := by
  cases sendOk
  · simp [add_sensor_some_false t ty st hs]
  · simp [add_sensor_some_true t ty st hs]

/-- C2 counterexample: on an initialized tracker with an empty registry,
an `add_sensor` whose announce send fails leaves the registry empty —
the sensor is *not* appended, refuting the claim that registry
membership does not depend on announce success. -/
theorem C2_counterexample :
    (add_sensor false trackerIdle ImuType.Mpu6050 SensorStatus.Ok).tracker.sensors = [] ∧
    (add_sensor false trackerIdle ImuType.Mpu6050 SensorStatus.Ok).res =
      Outcome.err msgSendFailed := by
  decide

/-- C2 witness: the amended theorem applied at a concrete initialized tracker. -/
theorem C2_witness :
    trackerIdle.socket = some () ∧
    (((add_sensor true trackerIdle ImuType.Mpu6050 SensorStatus.Ok).res = Outcome.ok () ↔
        true = true) ∧
      (add_sensor true trackerIdle ImuType.Mpu6050 SensorStatus.Ok).tracker.sensors =
        (if true then trackerIdle.sensors ++
            [⟨trackerIdle.sensors.length % U8_MOD, ImuType.Mpu6050, SensorStatus.Ok⟩]
         else trackerIdle.sensors)) :=
  ⟨rfl, C2_add_sensor_append_iff_announce trackerIdle ImuType.Mpu6050 SensorStatus.Ok true rfl⟩

/-! ### Claim C3 -/

/-- C3 (amended): when the liveness watchdog observes that the elapsed
time since the last recorded server heartbeat exceeds the configured
timeout, it logs and sets the session status to `Initializing` — and does
nothing else: no status change is published on the status broadcast and
the socket reference is *not* cleared (the spawned task has no access to
the `socket` field or the `watch` sender). -/
theorem C3_watchdog_sets_status_only (t : EmulatedTracker) (nowMs : Nat)
    (h : nowMs - t.last_heartbeat > t.server_timeout) :
    watchdog_step nowMs t =
      ({ t with state := { t.state with status := statusInitializing } },
       [Event.logged msgTimeout]) := by
  simp [watchdog_step, h]

/-- C3 counterexample: on a concrete connected tracker, a watchdog
timeout sets the status to `initializing` but publishes nothing (the
status channel still holds `connected-to-server`) and leaves the socket
present, refuting the claim that the change is published and the socket
cleared. -/
theorem C3_counterexample :
    (watchdog_step 6000 trackerConnected).1.state.status = statusInitializing ∧
    (watchdog_step 6000 trackerConnected).1.socket = some () ∧
    (watchdog_step 6000 trackerConnected).1.published_status = statusConnected ∧
    publishedOf (watchdog_step 6000 trackerConnected).2 = [] := by
  decide

/-- C3 witness: the amended theorem applied at the concrete connected
tracker with a late clock. -/
theorem C3_witness :
    6000 - trackerConnected.last_heartbeat > trackerConnected.server_timeout ∧
    watchdog_step 6000 trackerConnected =
      ({ trackerConnected with state :=
          { trackerConnected.state with status := statusInitializing } },
       [Event.logged msgTimeout]) :=
  ⟨by decide, C3_watchdog_sets_status_only trackerConnected 6000 (by decide)⟩

/-! ### Claim C4 -/

/-- C4 (amended): in every state reachable by *successful* `init` calls
(bind and broadcast-enable succeeding), `deinit` calls, inbound-datagram
passes and heartbeat-task iterations — watchdog timeout steps excluded —
the socket reference is present iff the session status is not
`Initializing`.  Both exclusions are forced by the code (see the
counterexample, which exhibits both): a watchdog timeout resets the
status without destroying the socket, and a failed bind inside `init`
leaves the status already flipped to `idle` (the source publishes and
sets it before binding) with no socket bound. -/
theorem C4_socket_iff_active (t : EmulatedTracker) (h : Reachable t) :
    t.socket = some () ↔ t.state.status ≠ statusInitializing := by
  have hii : statusIdle ≠ statusInitializing := by decide
  have hci : statusConnected ≠ statusInitializing := by decide
  induction h with
  | base mac fw b m ip port timeoutMs dbg => simp [new]
  | init_ok hr ih =>
    rename_i t0
    by_cases hc : t0.state.status = statusInitializing
    · simp [init_step, hc, hii]
    · simpa [init_step, hc] using ih
  | deinit_step hr ih =>
    rename_i t0
    by_cases hc : t0.state.status = statusInitializing
    · simpa [deinit, hc] using ih
    · simp [deinit, hc]
  | recv nowMs decoded recvOk sendOk hr ih =>
    rename_i t0
    rcases hso : t0.socket with _ | u
    · simpa [recv_step, hso] using ih
    · cases u
      cases recvOk
      · simpa [recv_step, hso] using ih
      · rw [recv_step_socket, recv_step_status nowMs decoded sendOk t0 hso]
        simp [hso, hci]
  | heartbeat sendOk hr ih =>
    rw [heartbeat_step_socket, heartbeat_step_status]
    exact ih

/-- C4 counterexample: two reachable states violate the claimed
invariant over the claim's unrestricted operation set.  First, the state
reached by a successful `init`, one inbound heartbeat and one watchdog
timeout has status `initializing` while the socket is still present.
Second, an `init` whose socket bind fails returns an error having already
flipped and published the status to `idle`, leaving a state with status
not `Initializing` and no socket. -/
theorem C4_counterexample :
    (trackerTimedOut.state.status = statusInitializing ∧
      trackerTimedOut.socket = some ()) ∧
    ((init_step false true tracker0).tracker.state.status = statusIdle ∧
      (init_step false true tracker0).tracker.socket = none ∧
      (init_step false true tracker0).res = Outcome.err msgBindFailed) := by
  decide

/-- C4 witness: the amended invariant applied to the reachable state
after one successful `init`. -/
theorem C4_witness :
    Reachable trackerIdle ∧
    (trackerIdle.socket = some () ↔ trackerIdle.state.status ≠ statusInitializing) :=
  have h : Reachable trackerIdle :=
    Reachable.init_ok (Reachable.base [222, 173, 190, 239, 1, 2] defaultServerIp
      none none none none none none)
  ⟨h, C4_socket_iff_active trackerIdle h⟩

/-! ### Claim C5 -/

/-- C5 (confirmed): over any two batches of successful `send_*` calls
separated by a `deinit()`/`init()` cycle, the sequence numbers stamped on
the outbound packets form the contiguous range starting one above the
initial `packet_number` — strictly increasing by exactly 1 per call, no
duplicates, no gaps — and `deinit` does not reset the counter (stated up
to `u64` wraparound, which needs `2^64` sends to occur). -/
theorem C5_sequence_numbers (t : EmulatedTracker) (ds1 ds2 : List SbPacket)
    (hs : t.socket = some ()) (_hst : t.state.status ≠ statusInitializing)
    (hn : t.state.packet_number + (ds1.length + ds2.length) < U64_MOD) :
    seqsOf (sendMany t ds1).2 ++
        seqsOf (sendMany (init_step true true
          (deinit (sendMany t ds1).1).tracker).tracker ds2).2 =
      List.range' (t.state.packet_number + 1) (ds1.length + ds2.length) ∧
    (deinit (sendMany t ds1).1).tracker.state.packet_number =
      t.state.packet_number + ds1.length := by
  have hn1 : t.state.packet_number + ds1.length < U64_MOD := by omega
  obtain ⟨h1seq, h1tr⟩ := sendMany_spec ds1 t hs hn1
  have ht1pn : (sendMany t ds1).1.state.packet_number =
      t.state.packet_number + ds1.length := by rw [h1tr]
  have hdpn : (deinit (sendMany t ds1).1).tracker.state.packet_number =
      t.state.packet_number + ds1.length := by rw [deinit_pn, ht1pn]
  refine ⟨?_, hdpn⟩
  have hmsock : (init_step true true
      (deinit (sendMany t ds1).1).tracker).tracker.socket = some () :=
    init_step_socket_fresh _ (deinit_status _)
  have hmpn : (init_step true true
      (deinit (sendMany t ds1).1).tracker).tracker.state.packet_number =
      t.state.packet_number + ds1.length := by rw [init_step_pn, hdpn]
  obtain ⟨h2seq, h2tr⟩ := sendMany_spec ds2 _ hmsock (by rw [hmpn]; omega)
  rw [h1seq, h2seq, hmpn, range'_split (t.state.packet_number + 1) ds1.length ds2.length,
    show t.state.packet_number + 1 + ds1.length
        = t.state.packet_number + ds1.length + 1 by omega]

/-- C5 witness: the theorem applied at a concrete initialized tracker
with one send before and one send after a `deinit()`/`init()` cycle. -/
theorem C5_witness :
    trackerIdle.socket = some () ∧
    trackerIdle.state.status ≠ statusInitializing ∧
    trackerIdle.state.packet_number +
      (([SbPacket.Heartbeat] : List SbPacket).length +
        ([SbPacket.Ping 7] : List SbPacket).length) < U64_MOD ∧
    (seqsOf (sendMany trackerIdle [SbPacket.Heartbeat]).2 ++
        seqsOf (sendMany (init_step true true
          (deinit (sendMany trackerIdle [SbPacket.Heartbeat]).1).tracker).tracker
          [SbPacket.Ping 7]).2 =
      List.range' (trackerIdle.state.packet_number + 1)
        (([SbPacket.Heartbeat] : List SbPacket).length +
          ([SbPacket.Ping 7] : List SbPacket).length) ∧
     (deinit (sendMany trackerIdle [SbPacket.Heartbeat]).1).tracker.state.packet_number =
       trackerIdle.state.packet_number + ([SbPacket.Heartbeat] : List SbPacket).length) :=
  ⟨rfl, by decide, by decide,
   C5_sequence_numbers trackerIdle [SbPacket.Heartbeat] [SbPacket.Ping 7]
     rfl (by decide) (by decide)⟩

/-! ### Claim C6 -/

/-- C6 (amended): while the status is `Idle`, the transition to
`ConnectedToServer` happens upon receipt of *any* inbound datagram —
whether or not it decodes — because the source flips the status before
attempting any decode; the transition occurs exactly once and exactly one
status change is published for it (any later inbound datagram publishes
nothing); a datagram that fails to decode is logged and discarded (no
outbound packet results from it), but only after the transition. -/
theorem C6_idle_transition_on_any_datagram (nowMs : Nat)
    (decoded : Option (Nat × CbPacket)) (sendOk : Bool) (t : EmulatedTracker)
    (hs : t.socket = some ()) (hst : t.state.status = statusIdle) :
    (recv_step nowMs decoded true sendOk t).1.state.status = statusConnected ∧
    publishedOf (recv_step nowMs decoded true sendOk t).2 = [statusConnected] ∧
    (∀ (n2 : Nat) (d2 : Option (Nat × CbPacket)) (r2 s2 : Bool),
      publishedOf (recv_step n2 d2 r2 s2 (recv_step nowMs decoded true sendOk t).1).2 = []) ∧
    (decoded = none →
      seqsOf (recv_step nowMs decoded true sendOk t).2 = [] ∧
      Event.logged (msgHandleError ++ msgParseFailed) ∈
        (recv_step nowMs decoded true sendOk t).2) := by
  have hne : t.state.status ≠ statusConnected := by rw [hst]; decide
  refine ⟨recv_step_status nowMs decoded sendOk t hs, ?_, ?_, ?_⟩
  · simp [recv_step, hs, recv_finish_published, handle_packet_no_publish,
      mark_connected_snd_of_ne _ _ hne, publishedOf_published]
  · intro n2 d2 r2 s2
    exact recv_step_published_of_connected n2 d2 r2 s2 _
      (recv_step_status nowMs decoded sendOk t hs)
  · intro hdec
    subst hdec
    constructor
    · simp [recv_step, hs, recv_finish, handle_packet,
        mark_connected_snd_of_ne _ _ hne, seqsOf]
    · simp [recv_step, hs, recv_finish, handle_packet,
        mark_connected_snd_of_ne _ _ hne]

/-- C6 counterexample: a datagram that fails to decode, received while
the status is `idle`, still triggers the transition to
`connected-to-server` and its publication, refuting the claim that the
transition happens only when the datagram decodes successfully. -/
theorem C6_counterexample :
    trackerIdle.state.status = statusIdle ∧
    (recv_step 1 none true true trackerIdle).1.state.status = statusConnected ∧
    publishedOf (recv_step 1 none true true trackerIdle).2 = [statusConnected] := by
  decide

/-- C6 witness: the amended theorem applied at the concrete idle tracker
receiving a malformed datagram, with the exactly-once conjunct
instantiated at a concrete follow-up datagram. -/
theorem C6_witness :
    trackerIdle.socket = some () ∧ trackerIdle.state.status = statusIdle ∧
    (recv_step 1 none true true trackerIdle).1.state.status = statusConnected ∧
    publishedOf (recv_step 1 none true true trackerIdle).2 = [statusConnected] ∧
    publishedOf (recv_step 2 (some (1, CbPacket.Heartbeat)) true true
      (recv_step 1 none true true trackerIdle).1).2 = [] ∧
    seqsOf (recv_step 1 none true true trackerIdle).2 = [] ∧
    Event.logged (msgHandleError ++ msgParseFailed) ∈
      (recv_step 1 none true true trackerIdle).2 := by
  have h := C6_idle_transition_on_any_datagram 1 none true trackerIdle rfl rfl
  exact ⟨rfl, rfl, h.1, h.2.1, h.2.2.1 2 (some (1, CbPacket.Heartbeat)) true true,
    (h.2.2.2 rfl).1, (h.2.2.2 rfl).2⟩

/-! ### Claim C7 -/

/-- C7 (amended): the sensor id assigned by the i-th successful
`add_sensor` call is `i mod 256` (the source truncates the registry
length with `as u8`): for `k ≤ 256` calls on a fresh registry the ids are
exactly `0, 1, …, k-1` in call order, and a further call after a
`deinit()`/`init()` cycle continues the sequence with `k mod 256` (that
is, with `k` whenever `k < 256`), since neither `deinit` nor `init`
clears the registry; ids repeat every 256 registrations, so they are
*not* never-reused in general (see the counterexample). -/
theorem C7_sensor_ids_sequential (k : Nat) (t : EmulatedTracker) (ty : ImuType)
    (st : SensorStatus) (hs : t.socket = some ()) (h0 : t.sensors = [])
    (hk : k ≤ U8_MOD) :
    (addSensors t k).sensors.map Sensor.sensor_id = List.range k ∧
    (add_sensor true (init_step true true
        (deinit (addSensors t k)).tracker).tracker ty st).tracker.sensors.map
        Sensor.sensor_id =
      List.range k ++ [k % U8_MOD] := by
  obtain ⟨hks, hkst, hklen, hkids⟩ := addSensors_spec k t hs
  have hidsk : (addSensors t k).sensors.map Sensor.sensor_id = List.range k := by
    rw [hkids, h0]
    simp only [List.map_nil, List.length_nil, List.nil_append]
    rw [List.range_eq_range']
    have hcong : ∀ i ∈ List.range' 0 k, i % U8_MOD = i := by
      intro i hi
      obtain ⟨-, hi2⟩ := List.mem_range'_1.mp hi
      exact Nat.mod_eq_of_lt (by omega)
    calc List.map (fun i => i % U8_MOD) (List.range' 0 k)
        = List.map id (List.range' 0 k) := List.map_congr_left hcong
      _ = List.range' 0 k := List.map_id _
  refine ⟨hidsk, ?_⟩
  have hmsock : (init_step true true (deinit (addSensors t k)).tracker).tracker.socket =
      some () := init_step_socket_fresh _ (deinit_status _)
  have hmsens : (init_step true true (deinit (addSensors t k)).tracker).tracker.sensors =
      (addSensors t k).sensors := by rw [init_step_sensors, deinit_sensors]
  rw [add_sensor_some_true _ ty st hmsock]
  show ((init_step true true (deinit (addSensors t k)).tracker).tracker.sensors ++
      [(⟨(init_step true true
          (deinit (addSensors t k)).tracker).tracker.sensors.length % U8_MOD, ty, st⟩ :
        Sensor)]).map Sensor.sensor_id = _
  rw [List.map_append, hmsens, hidsk, hklen, h0]
  simp

/-- C7 counterexample: after 257 successful `add_sensor` calls the id
assigned by the 257th call is 0 — the same id as the first call — so
sensor ids *are* reused, refuting the claim that the assigned ids are
exactly `0, 1, …, k-1` for every `k` with no reuse. -/
theorem C7_counterexample :
    ((addSensors trackerIdle 257).sensors.map Sensor.sensor_id).head? = some 0 ∧
    ((addSensors trackerIdle 257).sensors.map Sensor.sensor_id).getLast? = some 0 ∧
    (addSensors trackerIdle 257).sensors.length = 257 := by
  set_option maxRecDepth 100000 in decide

/-- C7 witness: the amended theorem applied with three sensors added
before the `deinit()`/`init()` cycle and one after. -/
theorem C7_witness :
    trackerIdle.socket = some () ∧ trackerIdle.sensors = [] ∧ 3 ≤ U8_MOD ∧
    ((addSensors trackerIdle 3).sensors.map Sensor.sensor_id = List.range 3 ∧
      (add_sensor true (init_step true true
          (deinit (addSensors trackerIdle 3)).tracker).tracker ImuType.Bno080
          SensorStatus.Ok).tracker.sensors.map Sensor.sensor_id =
        List.range 3 ++ [3 % U8_MOD]) :=
  ⟨rfl, rfl, by decide,
   C7_sensor_ids_sequential 3 trackerIdle ImuType.Bno080 SensorStatus.Ok rfl rfl (by decide)⟩

/-! ### Claim C8 -/

/-- C8 (amended): calling `deinit()` on a session whose status is
`Initializing` is a no-op returning success: the status, `packet_number`,
sensor registry, socket reference and status channel are all left exactly
as they were and nothing is published or sent.  The socket is therefore
absent after the call only when it was absent before — which fails for
the reachable post-watchdog-timeout states, where the status is
`Initializing` while the socket is still present (see the
counterexample). -/
theorem C8_deinit_noop_when_initializing (t : EmulatedTracker)
    (h : t.state.status = statusInitializing) :
    deinit t = ⟨Outcome.ok (), t, []⟩ := by
  simp [deinit, h]

/-- C8 counterexample: the reachable state produced by a watchdog timeout
has status `initializing` with the socket still present, and `deinit` on
it leaves the socket present — refuting the claim that the socket
reference is absent after any `deinit` call on an `Initializing`
session. -/
theorem C8_counterexample :
    trackerTimedOut.state.status = statusInitializing ∧
    (deinit trackerTimedOut).tracker.socket = some () := by
  decide

/-- C8 witness: the amended theorem applied at a freshly constructed
tracker. -/
theorem C8_witness :
    tracker0.state.status = statusInitializing ∧
    deinit tracker0 = ⟨Outcome.ok (), tracker0, []⟩ :=
  ⟨rfl, C8_deinit_noop_when_initializing tracker0 rfl⟩

/-! ### Claim C9 -/

/-- C9 (confirmed): calling `init()` on a session whose status is not
`Initializing` is a no-op returning success: it binds no socket, sends no
handshake, publishes no status change, and leaves the whole session state
(status, `packet_number`, socket reference, sensor registry) unchanged —
the source returns `Ok` from inside the initial lock scope before any
other action. -/
theorem C9_init_noop_when_active (bindOk broadcastOk : Bool) (t : EmulatedTracker)
    (h : t.state.status ≠ statusInitializing) :
    init_step bindOk broadcastOk t = ⟨Outcome.ok (), t, []⟩ := by
  simp [init_step, h]

/-- C9 witness: the theorem applied at the concrete idle tracker. -/
theorem C9_witness :
    trackerIdle.state.status ≠ statusInitializing ∧
    init_step true true trackerIdle = ⟨Outcome.ok (), trackerIdle, []⟩ :=
  ⟨by decide, C9_init_noop_when_active true true trackerIdle (by decide)⟩

/-! ### Claim C10 -/

/-- C10 (confirmed): handling an inbound datagram that decodes to
`Ping{challenge}` on an initialized tracker (socket present, send
succeeding) produces exactly one outbound packet — a `Ping` echoing the
same challenge — stamped with the freshly incremented value of the shared
`packet_number` counter, and changes nothing else in the session state. -/
theorem C10_ping_echo (t : EmulatedTracker) (seq challenge : Nat)
    (hs : t.socket = some ()) :
    handle_packet true t (some (seq, CbPacket.Ping challenge)) =
      ⟨Outcome.ok (),
       { t with state := { t.state with
           packet_number := (t.state.packet_number + 1) % U64_MOD } },
       [Event.sent ⟨(t.state.packet_number + 1) % U64_MOD,
          SbPacket.Ping challenge⟩]⟩ := by
  simp [handle_packet, send_packet_some_true t _ hs]

/-- C10 witness: the theorem applied at the concrete idle tracker and a
concrete challenge. -/
theorem C10_witness :
    trackerIdle.socket = some () ∧
    handle_packet true trackerIdle (some (9, CbPacket.Ping 42)) =
      ⟨Outcome.ok (),
       { trackerIdle with state := { trackerIdle.state with
           packet_number := (trackerIdle.state.packet_number + 1) % U64_MOD } },
       [Event.sent ⟨(trackerIdle.state.packet_number + 1) % U64_MOD,
          SbPacket.Ping 42⟩]⟩ :=
  ⟨rfl, C10_ping_echo trackerIdle 9 42 rfl⟩

end TrackerEmulation
